import Mathlib

/-!
Verification of the eBay tracker repository (`ebay-tracker`): a shallow
embedding of `database.py`, `tracker.py`, `notifier.py` and the subscriber
operations used by `bot.py`, together with theorems settling the spec claims.

SQLite state is modelled as a list of rows; each Python method becomes a pure
Lean function on that state.  `datetime.now()` is passed in as an explicit
`now : String` argument.  Python exceptions are modelled with `Option`/`Except`
where the source catches them.
-/

/-- A parsed listing record: the item dictionary built by
`EbayTracker._parse_browse_response` / `_parse_finding_response` in
`tracker.py`.  Keys that the parser only sets conditionally are `Option`s
(absent key = `none`). -/
structure ItemRecord where
  item_id : String
  title : String
  url : String
  keyword : Option String := none
  price : Option String := none
  currency : Option String := none
  image_url : Option String := none
  condition : Option String := none
  seller : Option String := none
  listing_date : Option String := none
  listing_type : Option String := none
  end_time : Option String := none
  bid_count : Option String := none
  shipping_cost : Option String := none
  shipping_currency : Option String := none
deriving DecidableEq

/-- One row of the `seen_items` table created in `Database._init_db`
(`database.py`).  `notified` is the SQLite `INTEGER DEFAULT 0` column. -/
structure SeenRow where
  item_id : String
  title : String
  price : Option String
  currency : Option String
  url : String
  image_url : Option String
  condition_display : Option String
  seller_username : Option String
  listing_date : Option String
  search_keyword : Option String
  first_seen_at : String
  notified : Nat
deriving DecidableEq

/-- The `seen_items` table state. -/
abbrev Db := List SeenRow

/-- `Database.is_item_seen`: `SELECT 1 FROM seen_items WHERE item_id = ?`. -/
def is_item_seen (db : Db) (id : String) : Bool :=
  db.any (fun r => r.item_id == id)

/-- The row inserted by `Database.add_item`: column values are the item's
dictionary entries (`item.get(...)` for the optional ones), `first_seen_at`
is `datetime.now().isoformat()` (passed in as `now`), `notified` is `0`. -/
def mkRow (item : ItemRecord) (now : String) : SeenRow :=
  { item_id := item.item_id
    title := item.title
    price := item.price
    currency := item.currency
    url := item.url
    image_url := item.image_url
    condition_display := item.condition
    seller_username := item.seller
    listing_date := item.listing_date
    search_keyword := item.keyword
    first_seen_at := now
    notified := 0 }

/-- `Database.add_item`: returns `False` without touching the table when the
identifier is already present, otherwise `INSERT`s the new row and returns
`True`. -/
def add_item (db : Db) (item : ItemRecord) (now : String) : Bool × Db :=
  if is_item_seen db item.item_id then (false, db)
  else (true, db ++ [mkRow item now])

/-- `Database.mark_as_notified`:
`UPDATE seen_items SET notified = 1 WHERE item_id = ?`. -/
def mark_as_notified (db : Db) (id : String) : Db :=
  db.map (fun r => if r.item_id == id then { r with notified := 1 } else r)

/-- Models SQLite `DATE(first_seen_at)` on the ISO-8601 strings this program
stores: the date part before the `T` separator. -/
def dateOf (iso : String) : String :=
  String.mk (iso.toList.takeWhile (fun c => c ≠ 'T'))

/-- The dictionary returned by `Database.get_stats`. -/
structure Stats where
  total_items : Nat
  items_by_keyword : List (Option String × Nat)
  items_today : Nat
deriving DecidableEq

/-- `Database.get_stats`: `COUNT(*)`, `GROUP BY search_keyword` (SQL groups
all `NULL` keywords under one key, modelled by grouping on the `Option`
value), and the count of rows whose `DATE(first_seen_at)` is today. -/
def get_stats (db : Db) (today : String) : Stats :=
  { total_items := db.length
    items_by_keyword :=
      (db.map (fun r => r.search_keyword)).dedup.map
        (fun k => (k, (db.filter (fun r => r.search_keyword == k)).length))
    items_today := (db.filter (fun r => dateOf r.first_seen_at == today)).length }

/-- Whether the character list `p` is an initial segment of `l`. -/
def listHasPre : List Char → List Char → Bool
  | [], _ => true
  | _ :: _, [] => false
  | a :: p, b :: l => a == b && listHasPre p l

/-- Whether the character list `p` occurs contiguously inside `l`. -/
def listHasSub (p : List Char) : List Char → Bool
  | [] => p.isEmpty
  | b :: l => listHasPre p (b :: l) || listHasSub p l

/-- Models the Python substring test `p in s` on strings. -/
def strInStr (p s : String) : Bool :=
  listHasSub p.toList s.toList

/-- Models Python `str.strip()`: drop whitespace from both ends. -/
def pyStrip (s : String) : String :=
  String.mk (((s.toList.dropWhile Char.isWhitespace).reverse.dropWhile
    Char.isWhitespace).reverse)

/-- Models Python `str.lower()` (ASCII case folding, as the source applies it
to ASCII keywords and titles). -/
def pyLower (s : String) : String :=
  String.mk (s.toList.map Char.toLower)

/-- Models Python `str.upper()`. -/
def pyUpper (s : String) : String :=
  String.mk (s.toList.map Char.toUpper)

/-- Split a character list at every occurrence of `c` (no collapsing), the
semantics of Python `str.split(c)` for a one-character separator. -/
def splitChar (c : Char) : List Char → List (List Char)
  | [] => [[]]
  | x :: xs =>
    let r := splitChar c xs
    if x == c then [] :: r
    else
      match r with
      | h :: t => (x :: h) :: t
      | [] => [[x]]

/-- Models Python `s.split(',')`. -/
def pySplitComma (s : String) : List String :=
  (splitChar ',' s.toList).map String.mk

/-- The configuration fields of `config.py` consumed by the response parsers
and the run loop.  `EXCLUDE_KEYWORDS` is the already-lower-cased list the
`Config` class builds from the environment; `LOCATED_IN` is the raw
comma-separated string. -/
structure Config where
  EXCLUDE_KEYWORDS : List String
  LOCATED_IN : String
  EBAY_SITE_ID : String
deriving DecidableEq

/-- `EbayTracker._get_marketplace_id`: the hard-coded `marketplace_map`
dictionary lookup with default `'EBAY_US'`. -/
def _get_marketplace_id (siteId : String) : String :=
  match siteId with
  | "EBAY_US" => "EBAY_US"
  | "EBAY_UK" => "EBAY_GB"
  | "EBAY_DE" => "EBAY_DE"
  | "EBAY_AU" => "EBAY_AU"
  | "EBAY_AT" => "EBAY_AT"
  | "EBAY_CA" => "EBAY_CA"
  | "EBAY_FR" => "EBAY_FR"
  | "EBAY_IT" => "EBAY_IT"
  | "EBAY_ES" => "EBAY_ES"
  | _ => "EBAY_US"

/-- `[loc.strip().upper() for loc in Config.LOCATED_IN.split(',')]`, the
located-in code list both parsers build. -/
def locatedCodes (cfg : Config) : List String :=
  (pySplitComma cfg.LOCATED_IN).map (fun l => pyUpper (pyStrip l))

/-- The exclude-keywords filter both parsers run over `item['title'].lower()`:
drop when any configured word occurs as a substring.  (The Python guard
`if Config.EXCLUDE_KEYWORDS:` is equivalent to `any` over the empty list.) -/
def excludedByKeywords (excludeKeywords : List String) (title : String) : Bool :=
  excludeKeywords.any (fun w => strInStr w (pyLower title))

/-- The location-match loop of `_parse_browse_response` (tracker.py 300-320):
any located-in code occurring in the upper-cased location string matches, with
the GB aliases "UNITED KINGDOM"/"UK"; when the location string is empty the
item is trusted exactly when `GB` is requested and the marketplace is
`EBAY_GB`. -/
def locationMatchesBrowse (cfg : Config) (full_location : String) : Bool :=
  if full_location ≠ "" then
    (locatedCodes cfg).any (fun loc_code =>
      strInStr loc_code (pyUpper full_location) ||
      (loc_code == "GB" &&
        (strInStr "UNITED KINGDOM" (pyUpper full_location) ||
         strInStr "UK" (pyUpper full_location))))
  else
    (locatedCodes cfg).contains "GB" &&
      _get_marketplace_id cfg.EBAY_SITE_ID == "EBAY_GB"

/-- The location-match loop of `_parse_finding_response` (tracker.py 442-464):
like the Browse one but with the additional US aliases
"UNITED STATES"/"USA", and the empty-location trust keyed directly on
`Config.EBAY_SITE_ID == 'EBAY_UK'`. -/
def locationMatchesFinding (cfg : Config) (full_location : String) : Bool :=
  if full_location ≠ "" then
    (locatedCodes cfg).any (fun loc_code =>
      strInStr loc_code (pyUpper full_location) ||
      (loc_code == "GB" &&
        (strInStr "UNITED KINGDOM" (pyUpper full_location) ||
         strInStr "UK" (pyUpper full_location))) ||
      (loc_code == "US" &&
        (strInStr "UNITED STATES" (pyUpper full_location) ||
         strInStr "USA" (pyUpper full_location))))
  else
    (locatedCodes cfg).contains "GB" && cfg.EBAY_SITE_ID == "EBAY_UK"

/-- `price` sub-object of a Browse API item summary. -/
structure BrowsePrice where
  value : Option String
  currency : Option String

/-- `image` sub-object of a Browse API item summary. -/
structure BrowseImage where
  imageUrl : Option String

/-- `seller` sub-object of a Browse API item summary. -/
structure BrowseSeller where
  username : Option String

/-- `shippingCost` sub-object of a Browse API shipping option. -/
structure BrowseShippingCost where
  value : Option String
  currency : Option String

/-- One entry of the Browse API `shippingOptions` list. -/
structure BrowseShippingOption where
  shippingCost : Option BrowseShippingCost

/-- `itemLocation` sub-object of a Browse API item summary. -/
structure BrowseLocation where
  country : Option String
  city : Option String
  postalCode : Option String

/-- One Browse API item summary as consumed by `_parse_browse_response`:
every key the parser reads, `none` = key absent from the JSON object. -/
structure BrowseItemData where
  itemId : Option String
  title : Option String
  itemWebUrl : Option String
  price : Option BrowsePrice := none
  image : Option BrowseImage := none
  condition : Option String := none
  seller : Option BrowseSeller := none
  buyingOptions : Option (List String) := none
  itemAffiliateWebUrl : Option String := none
  itemEndDate : Option String := none
  bidCount : Option Nat := none
  shippingOptions : Option (List BrowseShippingOption) := none
  itemLocation : Option BrowseLocation := none

/-- The field-extraction part of the per-item loop of
`_parse_browse_response` (tracker.py 218-267), before the filters.  `none`
models the `KeyError` on a missing required key (`itemId`, `title`,
`itemWebUrl`), which the per-item `except` turns into a skip.  `now` stands
for `datetime.now().strftime('%Y-%m-%d %H:%M')`. -/
def buildBrowseRecord (keyword now : String) (d : BrowseItemData) : Option ItemRecord :=
  match d.itemId, d.title, d.itemWebUrl with
  | some iid, some tl, some uw =>
    let item : ItemRecord := { item_id := iid, title := tl, url := uw, keyword := some keyword }
    let item := match d.price with
      | some p => { item with price := some (p.value.getD ""),
                              currency := some (p.currency.getD "") }
      | none => item
    let item := match d.image with
      | some im => { item with image_url := some (im.imageUrl.getD "") }
      | none => item
    let item := match d.condition with
      | some c => { item with condition := some c }
      | none => item
    let item := match d.seller with
      | some s => { item with seller := some (s.username.getD "") }
      | none => item
    let item := { item with listing_date := some now }
    let item := match d.buyingOptions with
      | some bo =>
        if bo.contains "AUCTION" then { item with listing_type := some "Auction" }
        else if bo.contains "FIXED_PRICE" || bo.contains "BEST_OFFER" then
          { item with listing_type := some "FixedPrice" }
        else item
      | none => item
    let item := match d.itemEndDate with
      | some ed => { item with end_time := some ed }
      | none => item
    let item := match d.bidCount with
      | some n => { item with bid_count := some (toString n) }
      | none => item
    let item := match d.shippingOptions with
      | some (so :: _) =>
        (match so.shippingCost with
         | some sc => { item with shipping_cost := some (sc.value.getD "0"),
                                  shipping_currency := some (sc.currency.getD "") }
         | none => item)
      | _ => item
    some item
  | _, _, _ => none

/-- The `full_location` string `_parse_browse_response` builds from
`itemLocation` (tracker.py 285-298): `f"{city [+ ' ' + postalCode]} {country}".strip()`. -/
def browseFullLocation (loc? : Option BrowseLocation) : String :=
  let item_location :=
    match loc? with
    | some loc =>
      let l := match loc.city with | some c => c | none => ""
      (match loc.postalCode with | some pc => l ++ " " ++ pc | none => l)
    | none => ""
  let item_country :=
    match loc? with
    | some loc => loc.country.getD ""
    | none => ""
  pyStrip (item_location ++ " " ++ item_country)

/-- One iteration of the `_parse_browse_response` item loop: build the
record, apply the exclude-keywords filter, then (when `LOCATED_IN` is
configured) the strict location filter; `none` = item skipped. -/
def parseBrowseItem (cfg : Config) (keyword now : String) (d : BrowseItemData) :
    Option ItemRecord :=
  match buildBrowseRecord keyword now d with
  | none => none
  | some item =>
    if excludedByKeywords cfg.EXCLUDE_KEYWORDS item.title then none
    else if cfg.LOCATED_IN ≠ "" then
      if locationMatchesBrowse cfg (browseFullLocation d.itemLocation) then some item
      else none
    else some item

/-- The JSON object returned by the Browse search endpoint; `none` models a
body with no `itemSummaries` key. -/
structure BrowseData where
  itemSummaries : Option (List BrowseItemData)

/-- `EbayTracker._parse_browse_response`. -/
def _parse_browse_response (cfg : Config) (data : BrowseData) (keyword now : String) :
    List ItemRecord :=
  match data.itemSummaries with
  | none => []
  | some lst => lst.filterMap (parseBrowseItem cfg keyword now)

/-- A Finding API money object (`__value__` / `@currencyId`). -/
structure FindingMoney where
  value : Option String
  currencyId : Option String

/-- A Finding API `condition` object. -/
structure FindingCondition where
  conditionDisplayName : Option String

/-- A Finding API `sellerInfo` object. -/
structure FindingSellerInfo where
  sellerUserName : Option String

/-- A Finding API `listingInfo` object. -/
structure FindingListingInfo where
  startTime : Option String := none
  listingType : Option String := none
  endTime : Option String := none

/-- A Finding API `sellingStatus` object. -/
structure FindingSellingStatus where
  currentPrice : Option FindingMoney := none
  bidCount : Option String := none

/-- A Finding API `shippingInfo` object. -/
structure FindingShippingInfo where
  shippingServiceCost : Option FindingMoney := none
  shipToLocations : Option String := none

/-- One Finding API item as consumed by `_parse_finding_response`.  In the
JSON every value is wrapped in a one-element list; the `[0]` unwrapping is
collapsed into the field itself, `none` = key absent. -/
structure FindingItemData where
  itemId : Option String
  title : Option String
  viewItemURL : Option String
  sellingStatus : Option FindingSellingStatus := none
  galleryURL : Option String := none
  condition : Option FindingCondition := none
  sellerInfo : Option FindingSellerInfo := none
  listingInfo : Option FindingListingInfo := none
  shippingInfo : Option FindingShippingInfo := none
  location : Option String := none
  country : Option String := none

/-- Models `datetime.fromisoformat(s.replace('Z', '+00:00')).strftime('%Y-%m-%d %H:%M')`
on the `YYYY-MM-DDTHH:MM...` timestamps the Finding API returns: checks the
leading fixed-width shape and rebuilds the date-plus-minutes string; `none`
models the `ValueError` that makes the per-item handler skip the item. -/
def pyIsoToMinute (s : String) : Option String :=
  match s.toList with
  | y1 :: y2 :: y3 :: y4 :: '-' :: m1 :: m2 :: '-' :: d1 :: d2 :: 'T' :: h1 :: h2 :: ':' :: mi1 :: mi2 :: _ =>
    if [y1, y2, y3, y4, m1, m2, d1, d2, h1, h2, mi1, mi2].all (fun c => c.isDigit) then
      some (String.mk [y1, y2, y3, y4, '-', m1, m2, '-', d1, d2, ' ', h1, h2, ':', mi1, mi2])
    else none
  | _ => none

/-- The field-extraction part of the per-item loop of
`_parse_finding_response` (tracker.py 350-403), before the filters.  `none`
models a `KeyError` on the required keys or the `ValueError` from parsing a
malformed `startTime`; both make the per-item handler skip the item. -/
def buildFindingRecord (keyword : String) (d : FindingItemData) : Option ItemRecord :=
  match d.itemId, d.title, d.viewItemURL with
  | some iid, some tl, some uw =>
    let item : ItemRecord := { item_id := iid, title := tl, url := uw, keyword := some keyword }
    let item := match d.sellingStatus with
      | some ss => { item with
          price := some ((ss.currentPrice.bind FindingMoney.value).getD ""),
          currency := some ((ss.currentPrice.bind FindingMoney.currencyId).getD "") }
      | none => item
    let item := match d.galleryURL with
      | some g => { item with image_url := some g }
      | none => item
    let item := match d.condition with
      | some c => { item with condition := some (c.conditionDisplayName.getD "") }
      | none => item
    let item := match d.sellerInfo with
      | some si => { item with seller := some (si.sellerUserName.getD "") }
      | none => item
    let listed : Option ItemRecord :=
      match d.listingInfo with
      | some li =>
        let dated : Option ItemRecord :=
          match li.startTime with
          | some st => (pyIsoToMinute st).map (fun ld => { item with listing_date := some ld })
          | none => some item
        dated.map (fun it =>
          let it := match li.listingType with
            | some lt => { it with listing_type := some lt }
            | none => it
          match li.endTime with
          | some et => { it with end_time := some et }
          | none => it)
      | none => some item
    match listed with
    | none => none
    | some item =>
      let item := match d.sellingStatus with
        | some ss =>
          (match ss.bidCount with
           | some bc => { item with bid_count := some bc }
           | none => item)
        | none => item
      let item := match d.shippingInfo with
        | some si =>
          (match si.shippingServiceCost with
           | some sc => { item with shipping_cost := some (sc.value.getD "0"),
                                    shipping_currency := some (sc.currencyId.getD "") }
           | none => item)
        | none => item
      some item
  | _, _, _ => none

/-- The `full_location` string `_parse_finding_response` builds
(tracker.py 420-436): `location`, then `country`, with `shipToLocations`
substituted for an empty country. -/
def findingFullLocation (d : FindingItemData) : String :=
  let item_location := d.location.getD ""
  let item_country := d.country.getD ""
  let item_country :=
    match d.shippingInfo with
    | some si =>
      (match si.shipToLocations with
       | some stl => if item_country == "" then stl else item_country
       | none => item_country)
    | none => item_country
  pyStrip (item_location ++ " " ++ item_country)

/-- One iteration of the `_parse_finding_response` item loop: build the
record, apply the exclude-keywords filter, then (when `LOCATED_IN` is
configured) the strict location filter; `none` = item skipped. -/
def parseFindingItem (cfg : Config) (keyword : String) (d : FindingItemData) :
    Option ItemRecord :=
  match buildFindingRecord keyword d with
  | none => none
  | some item =>
    if excludedByKeywords cfg.EXCLUDE_KEYWORDS item.title then none
    else if cfg.LOCATED_IN ≠ "" then
      if locationMatchesFinding cfg (findingFullLocation d) then some item
      else none
    else some item

/-- Finding API `searchResult` object. -/
structure FindingSearchResult where
  item : Option (List FindingItemData)

/-- Finding API response head (`findItemsAdvancedResponse[0]`). -/
structure FindingResult where
  ack : Option String
  searchResult : Option FindingSearchResult

/-- The JSON object returned by the Finding endpoint; `none` models a body
without the `findItemsAdvancedResponse` key (the outer `except` in the
parser then yields `[]`). -/
structure FindingResponse where
  findItemsAdvancedResponse : Option FindingResult

/-- `EbayTracker._parse_finding_response`. -/
def _parse_finding_response (cfg : Config) (data : FindingResponse) (keyword : String) :
    List ItemRecord :=
  match data.findItemsAdvancedResponse with
  | none => []
  | some result =>
    if result.ack.getD "" ≠ "Success" then []
    else
      match result.searchResult with
      | none => []
      | some sr =>
        match sr.item with
        | none => []
        | some lst => lst.filterMap (parseFindingItem cfg keyword)

/-- The client-side keep/drop decision of the Browse parse path on a built
record: pass the exclude filter, then (when `LOCATED_IN` is configured) the
location filter. -/
def browseKeeps (cfg : Config) (title full_location : String) : Bool :=
  !(excludedByKeywords cfg.EXCLUDE_KEYWORDS title) &&
    (cfg.LOCATED_IN == "" || locationMatchesBrowse cfg full_location)

/-- The client-side keep/drop decision of the Finding parse path on a built
record. -/
def findingKeeps (cfg : Config) (title full_location : String) : Bool :=
  !(excludedByKeywords cfg.EXCLUDE_KEYWORDS title) &&
    (cfg.LOCATED_IN == "" || locationMatchesFinding cfg full_location)

/-- Configuration requesting items located in the US, searching the US
marketplace, with no exclusions. -/
def cfgUSloc : Config :=
  { EXCLUDE_KEYWORDS := [], LOCATED_IN := "US", EBAY_SITE_ID := "EBAY_US" }

/-- Configuration requesting `GB` items on the GB-scoped marketplace
(`EBAY_SITE_ID = 'EBAY_UK'`, which `_get_marketplace_id` maps to `EBAY_GB`). -/
def cfgGBuk : Config :=
  { EXCLUDE_KEYWORDS := [], LOCATED_IN := "GB", EBAY_SITE_ID := "EBAY_UK" }

/-- Configuration requesting `GB` items on the US-scoped marketplace. -/
def cfgGBus : Config :=
  { EXCLUDE_KEYWORDS := [], LOCATED_IN := "GB", EBAY_SITE_ID := "EBAY_US" }

/-- A Browse payload exposing no location data at all. -/
def dBrowseNoLoc : BrowseItemData :=
  { itemId := some "B1", title := some "Nice Tape", itemWebUrl := some "u" }

/-- The record `dBrowseNoLoc` parses to (with keyword "k", time "n"). -/
def recBrowseNoLoc : ItemRecord :=
  { item_id := "B1", title := "Nice Tape", url := "u",
    keyword := some "k", listing_date := some "n" }

/-- A Finding payload exposing no location data at all. -/
def dFindingNoLoc : FindingItemData :=
  { itemId := some "F1", title := some "Nice Tape", viewItemURL := some "u" }

/-- The record `dFindingNoLoc` parses to (with keyword "k"). -/
def recFindingNoLoc : ItemRecord :=
  { item_id := "F1", title := "Nice Tape", url := "u", keyword := some "k" }

/-- A Browse payload whose only location datum is the country name
"United States". -/
def dBrowseUS : BrowseItemData :=
  { itemId := some "1", title := some "t", itemWebUrl := some "u",
    itemLocation := some { country := some "United States", city := none, postalCode := none } }

/-- A Finding payload whose only location datum is the country name
"United States". -/
def dFindingUS : FindingItemData :=
  { itemId := some "1", title := some "t", viewItemURL := some "u",
    country := some "United States" }

/-- The outcome of one HTTP request as `search_browse_api` /
`search_finding_api` observe it: `.error` is a raised `requests` exception,
`.ok (status, body)` a response, with `body = none` when `response.json()`
raises on a malformed payload. -/
abbrev HttpOutcome (β : Type) := Except String (Nat × Option β)

/-- The external world a single search interacts with: the result of
`get_oauth_token` (which catches its own failures and returns `None` on any
error) and the two endpoints' responses. -/
structure SearchEnv where
  token : Option String
  browseHttp : HttpOutcome BrowseData
  findingHttp : HttpOutcome FindingResponse

/-- `EbayTracker.search_finding_api`: on a raised exception or a non-200
status the function catches/logs and returns `[]`; on a 200 with a parsable
body it parses. -/
def search_finding_api (cfg : Config) (env : SearchEnv) (keyword : String) :
    List ItemRecord :=
  match env.findingHttp with
  | .error _ => []
  | .ok (status, body) =>
    if status == 200 then
      match body with
      | none => []
      | some data => _parse_finding_response cfg data keyword
    else []

/-- `EbayTracker.search_browse_api`: no OAuth token, a raised exception, a
non-200 status or a malformed body all fall back to `search_finding_api`;
a 200 with a parsable body is parsed. -/
def search_browse_api (cfg : Config) (env : SearchEnv) (keyword now : String) :
    List ItemRecord :=
  match env.token with
  | none => search_finding_api cfg env keyword
  | some _ =>
    match env.browseHttp with
    | .error _ => search_finding_api cfg env keyword
    | .ok (status, body) =>
      if status == 200 then
        match body with
        | none => search_finding_api cfg env keyword
        | some data => _parse_browse_response cfg data keyword now
      else search_finding_api cfg env keyword

/-- Failure of the Browse path before parsing: credential acquisition
failed, the request raised, the status was not 200, or the body was
malformed. -/
def browseRequestFails (env : SearchEnv) : Bool :=
  match env.token with
  | none => true
  | some _ =>
    match env.browseHttp with
    | .error _ => true
    | .ok (status, body) => status != 200 || body.isNone

/-- Failure of the Finding path before parsing. -/
def findingRequestFails (env : SearchEnv) : Bool :=
  match env.findingHttp with
  | .error _ => true
  | .ok (status, body) => status != 200 || body.isNone

/-- `Notifier.send_new_item_notification` (notifier.py 43-81): iterate the
recipient list, catching each per-recipient send error; return whether at
least one send succeeded.  `sendResult` is the outcome of the
`send_photo`/`send_message` call per chat id; when messaging is disabled
the function returns `False` without sending. -/
def send_new_item_notification (enabled : Bool) (chat_ids : List String)
    (sendResult : String → Except String Unit) : Bool :=
  if !enabled then false
  else
    0 < (chat_ids.filter (fun cid =>
      match sendResult cid with
      | .ok _ => true
      | .error _ => false)).length

/-- The environment of one `EbayTracker.run` invocation: the per-keyword
search results (in the program, `search_browse_api` with its own
environment), the outcome of `notify_new_item` per item (`.error` = the call
raised, `.ok b` = it returned `b`), whether Telegram is configured, and the
insertion timestamp. -/
structure RunEnv where
  search : String → List ItemRecord
  notifyOutcome : ItemRecord → Except String Bool
  telegramEnabled : Bool
  now : String

/-- One iteration of the item loop in `EbayTracker.run` (tracker.py
518-537): check-and-insert; for a new item, when Telegram is enabled, try to
notify and then mark as notified — a raised notification error is caught,
skipping the mark.  Returns the new store, whether the item was new, and
whether a notification was attempted. -/
def processItem (env : RunEnv) (db : Db) (item : ItemRecord) : Db × Bool × Bool :=
  match add_item db item env.now with
  | (false, db1) => (db1, false, false)
  | (true, db1) =>
    if env.telegramEnabled then
      match env.notifyOutcome item with
      | .error _ => (db1, true, true)
      | .ok _ => (mark_as_notified db1 item.item_id, true, true)
    else (db1, true, false)

/-- The item loop of `EbayTracker.run` over one keyword's results:
accumulates the new-item count and the number of notification attempts. -/
def processItems (env : RunEnv) (db : Db) : List ItemRecord → Db × Nat × Nat
  | [] => (db, 0, 0)
  | item :: rest =>
    let s1 := processItem env db item
    let s2 := processItems env s1.1 rest
    (s2.1, (if s1.2.1 then 1 else 0) + s2.2.1, (if s1.2.2 then 1 else 0) + s2.2.2)

/-- The keyword loop of `EbayTracker.run`: per keyword, fetch the search
results and run the item loop; returns the final store, `total_new_items`
and the total number of notification attempts. -/
def runLoop (env : RunEnv) (db : Db) : List String → Db × Nat × Nat
  | [] => (db, 0, 0)
  | kw :: rest =>
    let s1 := processItems env db (env.search kw)
    let s2 := runLoop env s1.1 rest
    (s2.1, s1.2.1 + s2.2.1, s1.2.2 + s2.2.2)

/-- The one-item run environment of the C6 counterexample: Telegram enabled,
a single configured recipient whose send raises a caught `TelegramError`, so
`notify_new_item` returns `False` without raising. -/
def envC6 : RunEnv :=
  { search := fun _ => []
    notifyOutcome := fun _ =>
      Except.ok (send_new_item_notification true ["1"] (fun _ => Except.error "TelegramError"))
    telegramEnabled := true
    now := "2026-01-01T00:00:00" }

/-- The item of the C6 counterexample. -/
def itemC6 : ItemRecord := { item_id := "A", title := "t", url := "u" }

/-- A search environment in which credential acquisition and both endpoints
fail. -/
def envBothFail : SearchEnv :=
  { token := none, browseHttp := Except.error "timeout",
    findingHttp := Except.error "timeout" }

/-- A run environment with a fixed remote result set, used to witness run
idempotence. -/
def envC8 : RunEnv :=
  { search := fun _ => [{ item_id := "K1", title := "t", url := "u" }]
    notifyOutcome := fun _ => Except.ok true
    telegramEnabled := true
    now := "2026-01-01T00:00:00" }

/-- A run environment whose notification call raises (the raise is caught by
the run loop). -/
def envC6err : RunEnv :=
  { search := fun _ => []
    notifyOutcome := fun _ => Except.error "boom"
    telegramEnabled := true
    now := "2026-01-01T00:00:00" }

/-- The item used in the C6 amended-theorem witness. -/
def itemC6w : ItemRecord := { item_id := "W", title := "t", url := "u" }

/-- Model of a Python float as an exact fraction (integer numerator,
positive denominator by construction).  The notifier's arithmetic
(`float(...)`, `+`, `*`, `/ 2`) is exact on the decimal inputs this program
feeds it, so the fraction model is faithful on them. -/
structure PyFloat where
  num : Int
  den : Nat
deriving DecidableEq

/-- Float addition. -/
def pfAdd (a b : PyFloat) : PyFloat :=
  ⟨a.num * b.den + b.num * a.den, a.den * b.den⟩

/-- Float multiplication. -/
def pfMul (a b : PyFloat) : PyFloat :=
  ⟨a.num * b.num, a.den * b.den⟩

/-- Division by two (the per-person split). -/
def pfHalf (a : PyFloat) : PyFloat :=
  ⟨a.num, a.den * 2⟩

/-- The float `0`. -/
def pfZero : PyFloat := ⟨0, 1⟩

/-- `0 < x` on floats (with a positive denominator). -/
def pfPos (a : PyFloat) : Bool := 0 < a.num

/-- Python truthiness of a float (`0.0` is falsy). -/
def pfNonzero (a : PyFloat) : Bool := a.num != 0

/-- The rational value of the modelled float. -/
def pfToRat (a : PyFloat) : ℚ := (a.num : ℚ) / (a.den : ℚ)

/-- Parse a non-empty all-digit character list, accumulator style. -/
def digitsToNatAux (acc : Nat) : List Char → Option Nat
  | [] => some acc
  | c :: cs =>
    if c.isDigit then digitsToNatAux (acc * 10 + (c.toNat - 48)) cs else none

/-- `none` on the empty list or any non-digit. -/
def digitsToNat : List Char → Option Nat
  | [] => none
  | l => digitsToNatAux 0 l

/-- Models Python `float(s)` on the non-negative decimal strings
(`"123"`/`"123.45"`) the eBay APIs return as prices; `none` models the
`ValueError` the notifier catches. -/
def parseDecimal (s : String) : Option PyFloat :=
  match splitChar '.' s.toList with
  | [a] => (digitsToNat a).map (fun n => ⟨(n : Int), 1⟩)
  | [a, b] =>
    match digitsToNat a, digitsToNat b with
    | some na, some nb => some ⟨(na : Int) * (10 ^ b.length : Nat) + (nb : Int), 10 ^ b.length⟩
    | _, _ => none
  | _ => none

/-- Round to the nearest integer, ties to even — the rounding Python's
`format(v, ',.0f')` applies (exact on this model's fractions). -/
def pfRoundHalfEven (x : PyFloat) : Int :=
  let d : Int := (x.den : Int)
  let f := x.num.fdiv d
  let rnum := x.num - f * d
  if 2 * rnum < d then f
  else if d < 2 * rnum then f + 1
  else if f % 2 == 0 then f else f + 1

/-- Insert a comma after every third character of a reversed digit list. -/
def commaRevAux : Nat → List Char → List Char
  | _, [] => []
  | n, c :: cs =>
    if n == 0 then ',' :: c :: commaRevAux 2 cs else c :: commaRevAux (n - 1) cs

/-- Models Python `f"{v:,.0f}"`: round half-to-even, thousands separators. -/
def pfFormatComma0 (x : PyFloat) : String :=
  let n := pfRoundHalfEven x
  let grouped := String.mk ((commaRevAux 3 ((toString n.natAbs).toList.reverse)).reverse)
  if n < 0 then "-" ++ grouped else grouped

/-- Models Python `f"{v:.1f}"` on the non-negative rates it is applied to. -/
def pfFormat1 (x : PyFloat) : String :=
  let n := pfRoundHalfEven (pfMul x ⟨10, 1⟩)
  toString (n.fdiv 10) ++ "." ++ toString (n.fmod 10).natAbs

/-- Models Python `f"{v:.2f}"` on the non-negative costs it is applied to. -/
def pfFormat2 (x : PyFloat) : String :=
  let n := pfRoundHalfEven (pfMul x ⟨100, 1⟩)
  let frac := (n.fmod 100).natAbs
  toString (n.fdiv 100) ++ "." ++ (if frac < 10 then "0" ++ toString frac else toString frac)

/-- Python truthiness of `item.get(key)` for a string field: key present and
value non-empty. -/
def optTruthy (o : Option String) : Bool :=
  match o with
  | some s => !(s == "")
  | none => false

/-- `item.get(key, '')` for a string field. -/
def getS (o : Option String) : String := o.getD ""

/-- The tail of `Notifier._format_item_message` (notifier.py 193-205):
condition, seller, listing date, keyword and the link. -/
def finishParts (item : ItemRecord) (parts : List String) : List String :=
  let parts := if optTruthy item.condition then
      parts ++ ["📋 Состояние: " ++ getS item.condition] else parts
  let parts := if optTruthy item.seller then
      parts ++ ["👤 Продавец: " ++ getS item.seller] else parts
  let parts := if optTruthy item.listing_date then
      parts ++ ["📅 Размещено: " ++ getS item.listing_date] else parts
  let parts := if optTruthy item.keyword then
      parts ++ ["\n🔍 Найдено по: <i>" ++ getS item.keyword ++ "</i>"] else parts
  parts ++ ["\n🔗 <a href=\"" ++ item.url ++ "\">Открыть на eBay</a>"]

/-- The `parts` list built by `Notifier._format_item_message`
(notifier.py 123-207).  `timeRemainingFn` stands for
`_format_time_remaining`, whose result depends on the wall clock; `rate?` is
the result of the `_get_exchange_rate` lookup (`none` = lookup failed, the
Python `None`). -/
def formatItemParts (timeRemainingFn : String → Option String)
    (rate? : Option PyFloat) (item : ItemRecord) : List String :=
  let parts := ["🆕 <b>Новый лот на eBay!</b>\n", "📦 <b>" ++ item.title ++ "</b>\n"]
  let listing_type := getS item.listing_type
  let parts :=
    if listing_type ≠ "" then
      if listing_type == "Auction" then
        let auction_str := "🔨 <b>Аукцион</b>"
        let auction_str :=
          if optTruthy item.end_time then
            match timeRemainingFn (getS item.end_time) with
            | some tr => auction_str ++ "\n⏰ Осталось: <b>" ++ tr ++ "</b>"
            | none => auction_str
          else auction_str
        parts ++ [auction_str]
      else if listing_type == "FixedPrice" then parts ++ ["🛒 <b>Buy It Now</b>"]
      else parts
    else parts
  if optTruthy item.price && optTruthy item.currency then
    let price := getS item.price
    let currency := getS item.currency
    let price_str :=
      if listing_type == "Auction" then
        let s := "💰 Текущая ставка: <b>" ++ price ++ " " ++ currency ++ "</b>"
        if optTruthy item.bid_count then s ++ "\n📊 Ставок: " ++ getS item.bid_count
        else s
      else "💰 " ++ price ++ " " ++ currency
    let parts := parts ++ [price_str]
    let shipping_cost : PyFloat :=
      if optTruthy item.shipping_cost then
        (parseDecimal (getS item.shipping_cost)).getD pfZero
      else pfZero
    let parts :=
      if optTruthy item.shipping_cost then
        match parseDecimal (getS item.shipping_cost) with
        | some sc =>
          if pfPos sc then
            parts ++ ["🚚 Доставка: ~" ++ pfFormat2 sc ++ " "
              ++ item.shipping_currency.getD currency]
          else parts
        | none => parts
      else parts
    let parts :=
      if currency == "GBP" then
        match parseDecimal price with
        | none => parts
        | some gbp_price =>
          let total_gbp := pfAdd gbp_price shipping_cost
          match rate? with
          | none => parts
          | some rate =>
            if pfNonzero rate then
              let rub_price := pfMul total_gbp rate
              let per_person := pfHalf rub_price
              let p1 :=
                if listing_type == "FixedPrice" then
                  "💵 ≈ " ++ pfFormatComma0 per_person ++ " ₽ на человека"
                    ++ (if pfPos shipping_cost then " (с доставкой)" else "")
                else
                  "💵 ≈ " ++ pfFormatComma0 rub_price ++ " ₽"
                    ++ (if pfPos shipping_cost then " (+ доставка)" else "")
              parts ++ [p1, "📈 Курс: " ++ pfFormat1 rate ++ " ₽/£"]
            else parts
      else parts
    finishParts item parts
  else finishParts item parts

/-- `Notifier._format_item_message`: the parts joined with newlines. -/
def _format_item_message (timeRemainingFn : String → Option String)
    (rate? : Option PyFloat) (item : ItemRecord) : String :=
  String.intercalate "\n" (formatItemParts timeRemainingFn rate? item)

/-- The fixed-price GBP item of the C7 scenario. -/
def itemFixedC7 : ItemRecord :=
  { item_id := "1", title := "Test", url := "u", price := some "100.00",
    currency := some "GBP", shipping_cost := some "5.00",
    shipping_currency := some "GBP", listing_type := some "FixedPrice" }

/-- The auction variant of the C7 item (same price and shipping). -/
def itemAuctionC7 : ItemRecord :=
  { itemFixedC7 with listing_type := some "Auction" }

/-- The exchange rate of the C7 scenario: 95.0 RUB per GBP. -/
def rate95 : PyFloat := ⟨95, 1⟩

/-- `gbp_price + shipping_cost` as the notifier computes it for the C7
item. -/
def gbpTotalC7 : PyFloat :=
  pfAdd ((parseDecimal "100.00").getD pfZero) ((parseDecimal "5.00").getD pfZero)

/-- The converted total (`total_gbp * exchange_rate`). -/
def rubPriceC7 : PyFloat := pfMul gbpTotalC7 rate95

/-- The per-person amount (`rub_price / 2`). -/
def perPersonC7 : PyFloat := pfHalf rubPriceC7

/-- Modelled from the spec: the `subscribers` table (spec §3 Subscriber,
§6 persisted state layout).  The implementation of the subscriber store is
missing from `src/` — `src/ebay-tracker/database.py` has no subscriber
methods although `bot.py` and `notifier.py` call them — so it is modelled
from the spec's words. -/
structure SubscriberRow where
  chat_id : String
  username : Option String
  first_name : Option String
  last_name : Option String
  subscribed_at : String
  is_active : Bool
deriving DecidableEq

/-- The subscriber table state. -/
abbrev SubDb := List SubscriberRow

/-- Modelled from the spec: `add_subscriber(chat_id, ...) -> is_new`
(spec §4.2) — "inserts or reactivates; returns whether the subscriber was
previously absent or inactive"; at most one row per `chat_id`,
"re-subscribing an inactive subscriber reactivates rather than
duplicates" (spec §3). -/
def add_subscriber (db : SubDb) (chat_id : String)
    (username first_name last_name : Option String) (now : String) :
    Bool × SubDb :=
  match db.find? (fun r => r.chat_id == chat_id) with
  | none => (true, db ++ [⟨chat_id, username, first_name, last_name, now, true⟩])
  | some r =>
    if r.is_active then (false, db)
    else (true, db.map (fun r2 =>
      if r2.chat_id == chat_id then { r2 with is_active := true } else r2))

/-- Modelled from the spec: `remove_subscriber(chat_id) -> was_active`
(spec §4.2); opt-out toggles `is_active` false, "never hard-deleted"
(spec §3). -/
def remove_subscriber (db : SubDb) (chat_id : String) : Bool × SubDb :=
  (db.any (fun r => r.chat_id == chat_id && r.is_active),
   db.map (fun r =>
     if r.chat_id == chat_id then { r with is_active := false } else r))

/-- Modelled from the spec: `is_subscribed(chat_id) -> bool` (spec §4.2). -/
def is_subscribed (db : SubDb) (chat_id : String) : Bool :=
  db.any (fun r => r.chat_id == chat_id && r.is_active)

/-- C1: `Database.add_item` called twice with the same listing (identifier
not yet in the store) returns `true` then `false`; the second call leaves the
table unchanged, the first call appends exactly the new row with
`notified = 0`, and `get_stats` reports one more total item than before. -/
theorem C1_add_item_insert_if_new (db : Db) (item : ItemRecord)
    (now now2 today : String)
    (h : is_item_seen db item.item_id = false) :
    (add_item db item now).1 = true ∧
    (add_item (add_item db item now).2 item now2).1 = false ∧
    (add_item (add_item db item now).2 item now2).2 = (add_item db item now).2 ∧
    (add_item db item now).2 = db ++ [mkRow item now] ∧
    (mkRow item now).notified = 0 ∧
    (get_stats (add_item (add_item db item now).2 item now2).2 today).total_items
      = (get_stats db today).total_items + 1 := by
  have hseen : is_item_seen (db ++ [mkRow item now]) item.item_id = true := by
    simp [is_item_seen, List.any_append, mkRow]
  have h1 : add_item db item now = (true, db ++ [mkRow item now]) := by
    simp [add_item, h]
  have h2 : add_item (db ++ [mkRow item now]) item now2
      = (false, db ++ [mkRow item now]) := by
    simp [add_item, hseen]
  rw [h1, h2]
  refine ⟨rfl, rfl, rfl, rfl, rfl, ?_⟩
  simp [get_stats]

/-- Witness for C1 at a concrete item and the empty store. -/
theorem C1_witness :
    (add_item [] { item_id := "A", title := "t", url := "u" } "2026-01-01T00:00:00").1 = true ∧
    (add_item (add_item [] { item_id := "A", title := "t", url := "u" } "2026-01-01T00:00:00").2
      { item_id := "A", title := "t", url := "u" } "2026-01-01T00:00:01").1 = false :=
  ⟨(C1_add_item_insert_if_new [] { item_id := "A", title := "t", url := "u" }
      "2026-01-01T00:00:00" "2026-01-01T00:00:01" "2026-01-01" (by decide)).1,
   (C1_add_item_insert_if_new [] { item_id := "A", title := "t", url := "u" }
      "2026-01-01T00:00:00" "2026-01-01T00:00:01" "2026-01-01" (by decide)).2.1⟩

/-- Normal form of `parseBrowseItem` on a successfully built record. -/
theorem parseBrowseItem_build_some (cfg : Config) (kw now : String)
    (d : BrowseItemData) (item : ItemRecord)
    (hb : buildBrowseRecord kw now d = some item) :
    parseBrowseItem cfg kw now d =
      if browseKeeps cfg item.title (browseFullLocation d.itemLocation)
      then some item else none := by
  unfold parseBrowseItem browseKeeps
  rw [hb]
  by_cases hex : excludedByKeywords cfg.EXCLUDE_KEYWORDS item.title
  · simp [hex]
  · by_cases hli : cfg.LOCATED_IN = ""
    · simp [hex, hli]
    · simp only [Bool.not_eq_true] at hex
      simp [hex, hli]

/-- Normal form of `parseFindingItem` on a successfully built record. -/
theorem parseFindingItem_build_some (cfg : Config) (kw : String)
    (d : FindingItemData) (item : ItemRecord)
    (hb : buildFindingRecord kw d = some item) :
    parseFindingItem cfg kw d =
      if findingKeeps cfg item.title (findingFullLocation d)
      then some item else none := by
  unfold parseFindingItem findingKeeps
  rw [hb]
  by_cases hex : excludedByKeywords cfg.EXCLUDE_KEYWORDS item.title
  · simp [hex]
  · by_cases hli : cfg.LOCATED_IN = ""
    · simp [hex, hli]
    · simp only [Bool.not_eq_true] at hex
      simp [hex, hli]

/-- A record kept by the Browse per-item step passes the exclusion filter. -/
theorem parseBrowseItem_not_excluded {cfg : Config} {kw now : String}
    {d : BrowseItemData} {rec : ItemRecord}
    (h : parseBrowseItem cfg kw now d = some rec) :
    excludedByKeywords cfg.EXCLUDE_KEYWORDS rec.title = false := by
  rcases hb : buildBrowseRecord kw now d with _ | item
  · rw [parseBrowseItem, hb] at h; cases h
  · rw [parseBrowseItem_build_some cfg kw now d item hb] at h
    split at h
    · next hk =>
      cases h
      have := hk
      unfold browseKeeps at this
      rcases Bool.and_eq_true .. |>.mp this with ⟨h1, _⟩
      simpa using h1
    · cases h

/-- A record kept by the Finding per-item step passes the exclusion filter. -/
theorem parseFindingItem_not_excluded {cfg : Config} {kw : String}
    {d : FindingItemData} {rec : ItemRecord}
    (h : parseFindingItem cfg kw d = some rec) :
    excludedByKeywords cfg.EXCLUDE_KEYWORDS rec.title = false := by
  rcases hb : buildFindingRecord kw d with _ | item
  · rw [parseFindingItem, hb] at h; cases h
  · rw [parseFindingItem_build_some cfg kw d item hb] at h
    split at h
    · next hk =>
      cases h
      have := hk
      unfold findingKeeps at this
      rcases Bool.and_eq_true .. |>.mp this with ⟨h1, _⟩
      simpa using h1
    · cases h

/-- C2: neither parse path ever outputs a record whose case-folded title
contains a configured exclusion substring, whatever the other filters are. -/
theorem C2_exclusion_filter (cfg : Config) (bdata : BrowseData)
    (fdata : FindingResponse) (kw now : String) (rec : ItemRecord) :
    (rec ∈ _parse_browse_response cfg bdata kw now →
      ∀ e ∈ cfg.EXCLUDE_KEYWORDS, strInStr e (pyLower rec.title) = false) ∧
    (rec ∈ _parse_finding_response cfg fdata kw →
      ∀ e ∈ cfg.EXCLUDE_KEYWORDS, strInStr e (pyLower rec.title) = false) := by
  constructor
  · intro hmem e he
    have hnx : excludedByKeywords cfg.EXCLUDE_KEYWORDS rec.title = false := by
      unfold _parse_browse_response at hmem
      rcases hs : bdata.itemSummaries with _ | lst
      · rw [hs] at hmem; cases hmem
      · rw [hs] at hmem
        obtain ⟨d, _, hd⟩ := List.mem_filterMap.mp hmem
        exact parseBrowseItem_not_excluded hd
    unfold excludedByKeywords at hnx
    have := List.any_eq_false.mp hnx e he
    simpa using this
  · intro hmem e he
    have hnx : excludedByKeywords cfg.EXCLUDE_KEYWORDS rec.title = false := by
      obtain ⟨resp⟩ := fdata
      rcases resp with _ | ⟨ack, sres⟩
      · simp [_parse_finding_response] at hmem
      · rcases sres with _ | ⟨items⟩
        · simp [_parse_finding_response] at hmem
        · rcases items with _ | lst
          · simp [_parse_finding_response] at hmem
          · by_cases hack : ack.getD "" = "Success"
            · simp only [_parse_finding_response, hack, ne_eq, not_true_eq_false,
                if_false, List.mem_filterMap] at hmem
              obtain ⟨d, _, hd⟩ := hmem
              exact parseFindingItem_not_excluded hd
            · simp [_parse_finding_response, hack] at hmem
    unfold excludedByKeywords at hnx
    have := List.any_eq_false.mp hnx e he
    simpa using this

/-- Witness for C2: a concrete excluded word and a record the Browse path
kept. -/
theorem C2_witness : strInStr "box set" (pyLower "Nice Tape") = false :=
  (C2_exclusion_filter ⟨["box set"], "", "EBAY_US"⟩ ⟨some [dBrowseNoLoc]⟩ ⟨none⟩
    "k" "n" recBrowseNoLoc).1 (by decide) "box set" (by decide)

/-- C3: when `LOCATED_IN` is configured and a non-excluded record's payload
exposes no location data, each parse path keeps the record exactly when `GB`
is among the requested codes and the search is scoped to the marketplace the
code treats as equivalent to `GB` (`EBAY_GB` for Browse, site `EBAY_UK` for
Finding); concretely, with `LOCATED_IN = "GB"` the record is kept under the
GB-scoped marketplace and dropped under the US-scoped one. -/
theorem C3_no_location_trusts_marketplace
    (cfg : Config) (db_ : BrowseItemData) (df : FindingItemData)
    (recb recf : ItemRecord) (kw now : String)
    (hloc : cfg.LOCATED_IN ≠ "")
    (hb : buildBrowseRecord kw now db_ = some recb)
    (hbe : excludedByKeywords cfg.EXCLUDE_KEYWORDS recb.title = false)
    (hbl : browseFullLocation db_.itemLocation = "")
    (hf : buildFindingRecord kw df = some recf)
    (hfe : excludedByKeywords cfg.EXCLUDE_KEYWORDS recf.title = false)
    (hfl : findingFullLocation df = "") :
    (parseBrowseItem cfg kw now db_ = some recb ↔
      ((locatedCodes cfg).contains "GB" = true ∧
        _get_marketplace_id cfg.EBAY_SITE_ID = "EBAY_GB")) ∧
    (parseFindingItem cfg kw df = some recf ↔
      ((locatedCodes cfg).contains "GB" = true ∧ cfg.EBAY_SITE_ID = "EBAY_UK")) ∧
    parseBrowseItem cfgGBuk "k" "n" dBrowseNoLoc = some recBrowseNoLoc ∧
    parseBrowseItem cfgGBus "k" "n" dBrowseNoLoc = none ∧
    parseFindingItem cfgGBuk "k" dFindingNoLoc = some recFindingNoLoc ∧
    parseFindingItem cfgGBus "k" dFindingNoLoc = none := by
  refine ⟨?_, ?_, by decide, by decide, by decide, by decide⟩
  · have hkeq : browseKeeps cfg recb.title (browseFullLocation db_.itemLocation)
        = ((locatedCodes cfg).contains "GB" &&
            (_get_marketplace_id cfg.EBAY_SITE_ID == "EBAY_GB")) := by
      rw [hbl]
      unfold browseKeeps locationMatchesBrowse
      simp [hbe, hloc, beq_iff_eq]
    rw [parseBrowseItem_build_some cfg kw now db_ recb hb, hkeq]
    constructor
    · intro h
      split at h
      · next hcond =>
        have hc := Bool.and_eq_true .. |>.mp hcond
        exact ⟨hc.1, by simpa using hc.2⟩
      · cases h
    · rintro ⟨h1, h2⟩
      rw [h1, h2]
      simp
  · have hkeq : findingKeeps cfg recf.title (findingFullLocation df)
        = ((locatedCodes cfg).contains "GB" &&
            (cfg.EBAY_SITE_ID == "EBAY_UK")) := by
      rw [hfl]
      unfold findingKeeps locationMatchesFinding
      simp [hfe, hloc, beq_iff_eq]
    rw [parseFindingItem_build_some cfg kw df recf hf, hkeq]
    constructor
    · intro h
      split at h
      · next hcond =>
        have hc := Bool.and_eq_true .. |>.mp hcond
        exact ⟨hc.1, by simpa using hc.2⟩
      · cases h
    · rintro ⟨h1, h2⟩
      rw [h1, h2]
      simp

/-- Witness for C3 at the concrete GB configuration and payloads. -/
theorem C3_witness : parseBrowseItem cfgGBuk "k" "n" dBrowseNoLoc = some recBrowseNoLoc :=
  (C3_no_location_trusts_marketplace cfgGBuk dBrowseNoLoc dFindingNoLoc
    recBrowseNoLoc recFindingNoLoc "k" "n" (by decide) (by decide) (by decide)
    (by decide) (by decide) (by decide) (by decide)).2.2.1

/-- `any` only depends on the predicate's values on the list. -/
theorem anyCongrOn {α : Type} (l : List α) (p q : α → Bool)
    (h : ∀ a ∈ l, p a = q a) : l.any p = l.any q := by
  induction l with
  | nil => rfl
  | cons a t ih =>
    simp only [List.any_cons]
    rw [h a (by simp), ih (fun b hb => h b (by simp [hb]))]

/-- The marketplace map sends a site to `EBAY_GB` exactly for site
`EBAY_UK`. -/
theorem marketplace_gb_iff (s : String) :
    (_get_marketplace_id s == "EBAY_GB") = (s == "EBAY_UK") := by
  unfold _get_marketplace_id
  split <;> simp_all

/-- Without `US` among the requested codes, the two location filters agree
on every location string. -/
theorem locationMatches_eq_of_noUS (cfg : Config) (loc : String)
    (h : "US" ∉ locatedCodes cfg) :
    locationMatchesBrowse cfg loc = locationMatchesFinding cfg loc := by
  unfold locationMatchesBrowse locationMatchesFinding
  by_cases hl : loc = ""
  · rw [if_neg (fun hne => hne hl), if_neg (fun hne => hne hl), marketplace_gb_iff]
  · rw [if_pos hl, if_pos hl]
    apply anyCongrOn
    intro c hc
    have hcus : (c == "US") = false := by
      cases hb : c == "US"
      · rfl
      · exact absurd (eq_of_beq hb ▸ hc) h
    simp [hcus]

/-- Counterexample for C4: with `LOCATED_IN = "US"` and an item located in
"United States", the Finding path keeps the record (US alias) while the
Browse path drops it (no US alias there), so the two paths do not make the
same keep/drop decision. -/
theorem C4_counterexample :
    locationMatchesBrowse cfgUSloc "United States" = false ∧
    locationMatchesFinding cfgUSloc "United States" = true ∧
    _parse_browse_response cfgUSloc ⟨some [dBrowseUS]⟩ "k" "n" = [] ∧
    _parse_finding_response cfgUSloc
      ⟨some ⟨some "Success", some ⟨some [dFindingUS]⟩⟩⟩ "k"
      = [{ item_id := "1", title := "t", url := "u", keyword := some "k" }] := by
  refine ⟨by decide, by decide, by decide, by decide⟩

/-- C4 (amended): both parse paths use the same exclusion filter and, as
long as `US` is not among the requested location codes, the same location
decision (including the GB aliases); the US aliases exist only on the
Finding path. -/
theorem C4_uniform_filtering_amended (cfg : Config) (title full_location : String)
    (h : "US" ∉ locatedCodes cfg) :
    browseKeeps cfg title full_location = findingKeeps cfg title full_location := by
  unfold browseKeeps findingKeeps
  rw [locationMatches_eq_of_noUS cfg full_location h]

/-- Witness for C4's amended theorem at a GB-only configuration. -/
theorem C4_witness :
    browseKeeps cfgGBuk "t" "London" = findingKeeps cfgGBuk "t" "London" :=
  C4_uniform_filtering_amended cfgGBuk "t" "London" (by decide)

/-- C5: the search operation never raises — every failure before parsing on
the Browse path (no token, raised request, non-2xx, malformed body) makes
`search_browse_api` return exactly the Finding path's result, and every such
failure on the Finding path makes `search_finding_api` return `[]`, so the
caller always receives a (possibly empty) list. -/
theorem C5_search_never_raises_fallback (cfg : Config) (env : SearchEnv)
    (kw now : String) :
    (browseRequestFails env = true →
      search_browse_api cfg env kw now = search_finding_api cfg env kw) ∧
    (findingRequestFails env = true → search_finding_api cfg env kw = []) := by
  obtain ⟨tok, bh, fh⟩ := env
  constructor
  · intro h
    rcases tok with _ | t
    · rfl
    · rcases bh with e | ⟨st, body⟩
      · rfl
      · rcases body with _ | data
        · simp [search_browse_api]
        · have hne : ¬st = 200 := by
            simpa [browseRequestFails] using h
          simp [search_browse_api, hne]
  · intro h
    rcases fh with e | ⟨st, body⟩
    · rfl
    · rcases body with _ | data
      · simp [search_finding_api]
      · have hne : ¬st = 200 := by
          simpa [findingRequestFails] using h
        simp [search_finding_api, hne]

/-- Witness for C5: with failing token acquisition and a failing legacy
endpoint the search returns the empty list. -/
theorem C5_witness : search_browse_api cfgGBuk envBothFail "k" "n" = [] := by
  have h := C5_search_never_raises_fallback cfgGBuk envBothFail "k" "n"
  exact (h.1 (by decide)).trans (h.2 (by decide))

/-- Normal form of `processItem`'s resulting store. -/
theorem processItem_fst (env : RunEnv) (db : Db) (item : ItemRecord) :
    (processItem env db item).1 =
      if is_item_seen db item.item_id then db
      else
        match env.telegramEnabled, env.notifyOutcome item with
        | true, .ok _ => mark_as_notified (db ++ [mkRow item env.now]) item.item_id
        | true, .error _ => db ++ [mkRow item env.now]
        | false, _ => db ++ [mkRow item env.now] := by
  unfold processItem add_item
  by_cases hs : is_item_seen db item.item_id
  · simp [hs]
  · simp only [hs, Bool.false_eq_true, if_false]
    cases ht : env.telegramEnabled
    · simp
    · cases ho : env.notifyOutcome item <;> simp

/-- `mark_as_notified` does not change which identifiers are present. -/
theorem is_item_seen_mark (db : Db) (i id : String) :
    is_item_seen (mark_as_notified db i) id = is_item_seen db id := by
  unfold is_item_seen mark_as_notified
  rw [List.any_map]
  apply anyCongrOn
  intro r _
  by_cases h : r.item_id == i <;> simp [Function.comp, h]

/-- Inserting a row keeps previously present identifiers present. -/
theorem is_item_seen_append (db : Db) (row : SeenRow) (id : String) :
    is_item_seen (db ++ [row]) id = (is_item_seen db id || (row.item_id == id)) := by
  simp [is_item_seen, List.any_append]

/-- Identifiers present in the store stay present through one item step. -/
theorem is_item_seen_processItem_mono (env : RunEnv) (db : Db)
    (item : ItemRecord) (id : String) (h : is_item_seen db id = true) :
    is_item_seen (processItem env db item).1 id = true := by
  rw [processItem_fst]
  by_cases hs : is_item_seen db item.item_id
  · simp [hs, h]
  · simp only [hs, Bool.false_eq_true, if_false]
    cases ht : env.telegramEnabled
    · simp [is_item_seen_append, h]
    · cases ho : env.notifyOutcome item
      · simp [is_item_seen_append, h]
      · simp [is_item_seen_mark, is_item_seen_append, h]

/-- After one item step the processed item's identifier is present. -/
theorem is_item_seen_processItem_self (env : RunEnv) (db : Db) (item : ItemRecord) :
    is_item_seen (processItem env db item).1 item.item_id = true := by
  rw [processItem_fst]
  by_cases hs : is_item_seen db item.item_id
  · simp [hs]
  · simp only [hs, Bool.false_eq_true, if_false]
    cases ht : env.telegramEnabled
    · simp [is_item_seen_append, mkRow]
    · cases ho : env.notifyOutcome item
      · simp [is_item_seen_append, mkRow]
      · simp [is_item_seen_mark, is_item_seen_append, mkRow]

/-- Identifiers present in the store stay present through the item loop. -/
theorem is_item_seen_processItems_mono (env : RunEnv) (items : List ItemRecord)
    (db : Db) (id : String) (h : is_item_seen db id = true) :
    is_item_seen (processItems env db items).1 id = true := by
  induction items generalizing db with
  | nil => exact h
  | cons it rest ih =>
    simp only [processItems]
    exact ih _ (is_item_seen_processItem_mono env db it id h)

/-- Every processed item's identifier is present after the item loop. -/
theorem is_item_seen_processItems_mem (env : RunEnv) (items : List ItemRecord)
    (db : Db) (item : ItemRecord) (hm : item ∈ items) :
    is_item_seen (processItems env db items).1 item.item_id = true := by
  induction items generalizing db with
  | nil => cases hm
  | cons it rest ih =>
    simp only [processItems]
    rcases List.mem_cons.mp hm with rfl | hm2
    · exact is_item_seen_processItems_mono env rest _ _
        (is_item_seen_processItem_self env db item)
    · exact ih _ hm2

/-- If every item of the batch is already seen, the item loop performs no
writes and attempts no notifications. -/
theorem processItems_all_seen (env : RunEnv) (items : List ItemRecord) (db : Db)
    (h : ∀ it ∈ items, is_item_seen db it.item_id = true) :
    processItems env db items = (db, 0, 0) := by
  induction items with
  | nil => rfl
  | cons it rest ih =>
    have h1 : processItem env db it = (db, false, false) := by
      unfold processItem add_item
      simp [h it (by simp)]
    simp only [processItems]
    rw [h1]
    simp [ih (fun x hx => h x (by simp [hx]))]

/-- Identifiers present in the store stay present through the keyword loop. -/
theorem is_item_seen_runLoop_mono (env : RunEnv) (kws : List String)
    (db : Db) (id : String) (h : is_item_seen db id = true) :
    is_item_seen (runLoop env db kws).1 id = true := by
  induction kws generalizing db with
  | nil => exact h
  | cons kw rest ih =>
    simp only [runLoop]
    exact ih _ (is_item_seen_processItems_mono env (env.search kw) db id h)

/-- After a run, every identifier returned by the (fixed) search is
present. -/
theorem is_item_seen_runLoop_mem (env : RunEnv) (kws : List String) (db : Db)
    (kw : String) (item : ItemRecord) (hk : kw ∈ kws) (hm : item ∈ env.search kw) :
    is_item_seen (runLoop env db kws).1 item.item_id = true := by
  induction kws generalizing db with
  | nil => cases hk
  | cons k rest ih =>
    simp only [runLoop]
    rcases List.mem_cons.mp hk with rfl | hk2
    · exact is_item_seen_runLoop_mono env rest _ _
        (is_item_seen_processItems_mem env (env.search kw) db item hm)
    · exact ih _ hk2

/-- A run over keywords whose every result is already seen changes nothing
and notifies nobody. -/
theorem runLoop_all_seen (env : RunEnv) (kws : List String) (db : Db)
    (h : ∀ kw ∈ kws, ∀ it ∈ env.search kw, is_item_seen db it.item_id = true) :
    runLoop env db kws = (db, 0, 0) := by
  induction kws with
  | nil => rfl
  | cons kw rest ih =>
    simp only [runLoop]
    rw [processItems_all_seen env (env.search kw) db (h kw (by simp))]
    simp [ih (fun k hk it hit => h k (by simp [hk]) it hit)]

/-- C8: running the poll loop a second time against the unchanged remote
result set leaves the store untouched, finds zero new items and attempts
zero notifications. -/
theorem C8_run_idempotent (env env2 : RunEnv) (db : Db) (kws : List String)
    (hsame : env2.search = env.search) :
    runLoop env2 (runLoop env db kws).1 kws = ((runLoop env db kws).1, 0, 0) := by
  apply runLoop_all_seen
  intro kw hk it hit
  rw [hsame] at hit
  exact is_item_seen_runLoop_mem env kws db kw it hk hit

/-- Witness for C8 at a concrete environment and keyword list. -/
theorem C8_witness :
    runLoop envC8 (runLoop envC8 [] ["k"]).1 ["k"] = ((runLoop envC8 [] ["k"]).1, 0, 0) :=
  C8_run_idempotent envC8 envC8 [] ["k"] rfl

/-- `mark_as_notified` with a different identifier leaves an identifier's
rows unchanged. -/
theorem filter_mark_ne (db : Db) (i id : String) (h : ¬i = id) :
    (mark_as_notified db i).filter (fun r => r.item_id == id)
      = db.filter (fun r => r.item_id == id) := by
  induction db with
  | nil => rfl
  | cons r t ih =>
    have hmap : mark_as_notified (r :: t) i
        = (if r.item_id == i then { r with notified := 1 } else r)
            :: mark_as_notified t i := rfl
    rw [hmap, List.filter_cons, List.filter_cons]
    by_cases hr : (r.item_id == i) = true
    · have hid : (r.item_id == id) = false := by
        rw [eq_of_beq hr]
        exact beq_eq_false_iff_ne.mpr h
      rw [if_pos hr]
      have hhead : (({ r with notified := 1 } : SeenRow).item_id == id) = false := hid
      rw [hhead]
      simpa using ih
    · simp only [Bool.not_eq_true] at hr
      rw [hr]
      simp only [Bool.false_eq_true, if_false]
      by_cases hid : (r.item_id == id) = true
      · rw [hid]
        simp only [if_true]
        rw [ih]
      · simp only [Bool.not_eq_true] at hid
        rw [hid]
        simp only [Bool.false_eq_true, if_false]
        exact ih

/-- A store with no row for an identifier filters to the empty list on it. -/
theorem filter_eq_nil_of_not_seen (db : Db) (id : String)
    (h : is_item_seen db id = false) :
    db.filter (fun r => r.item_id == id) = [] := by
  rw [List.filter_eq_nil_iff]
  intro r hr
  have := List.any_eq_false.mp h r hr
  simpa using this

/-- One item step leaves the rows of an already-present identifier
unchanged. -/
theorem processItem_preserves_seen_rows (env : RunEnv) (db : Db)
    (item : ItemRecord) (id : String) (h : is_item_seen db id = true) :
    (processItem env db item).1.filter (fun r => r.item_id == id)
      = db.filter (fun r => r.item_id == id) := by
  rw [processItem_fst]
  by_cases hs : is_item_seen db item.item_id
  · simp [hs]
  · have hne : ¬item.item_id = id := by
      intro he
      rw [he, h] at hs
      exact hs rfl
    have happ : (db ++ [mkRow item env.now]).filter (fun r => r.item_id == id)
        = db.filter (fun r => r.item_id == id) := by
      have : ((mkRow item env.now).item_id == id) = false := by
        simpa [mkRow] using beq_eq_false_iff_ne.mpr hne
      simp [List.filter_append, List.filter_cons, this]
    simp only [hs, Bool.false_eq_true, if_false]
    cases ht : env.telegramEnabled
    · simpa using happ
    · cases ho : env.notifyOutcome item
      · simpa using happ
      · rw [filter_mark_ne _ _ _ hne, happ]

/-- The item loop leaves the rows of an already-present identifier
unchanged. -/
theorem processItems_preserves_seen_rows (env : RunEnv) (items : List ItemRecord)
    (db : Db) (id : String) (h : is_item_seen db id = true) :
    (processItems env db items).1.filter (fun r => r.item_id == id)
      = db.filter (fun r => r.item_id == id) := by
  induction items generalizing db with
  | nil => rfl
  | cons it rest ih =>
    simp only [processItems]
    rw [ih _ (is_item_seen_processItem_mono env db it id h),
      processItem_preserves_seen_rows env db it id h]

/-- C6 (amended): when the notification call for a new item raises, the
exception is caught, the item stays in the store with `notified = 0`, and the
loop continues over the remaining items (the run completes, counting the item
as new and the attempt as made).  (When the call instead returns `False`
— all per-recipient errors are caught inside the notifier — the run still
marks the item as notified; see the counterexample.) -/
theorem C6_notification_failure_amended (env : RunEnv) (db : Db)
    (item : ItemRecord) (rest : List ItemRecord) (e : String)
    (hseen : is_item_seen db item.item_id = false)
    (htel : env.telegramEnabled = true)
    (hout : env.notifyOutcome item = Except.error e) :
    processItems env db (item :: rest) =
      ((processItems env (db ++ [mkRow item env.now]) rest).1,
       1 + (processItems env (db ++ [mkRow item env.now]) rest).2.1,
       1 + (processItems env (db ++ [mkRow item env.now]) rest).2.2) ∧
    (processItems env db (item :: rest)).1.filter (fun r => r.item_id == item.item_id)
      = [mkRow item env.now] ∧
    (mkRow item env.now).notified = 0 := by
  have hpi : processItem env db item = (db ++ [mkRow item env.now], true, true) := by
    unfold processItem add_item
    simp [hseen, htel, hout]
  have hstep : processItems env db (item :: rest) =
      ((processItems env (db ++ [mkRow item env.now]) rest).1,
       1 + (processItems env (db ++ [mkRow item env.now]) rest).2.1,
       1 + (processItems env (db ++ [mkRow item env.now]) rest).2.2) := by
    simp only [processItems]
    rw [hpi]
    simp
  refine ⟨hstep, ?_, rfl⟩
  rw [hstep]
  have hseen1 : is_item_seen (db ++ [mkRow item env.now]) item.item_id = true := by
    simp [is_item_seen_append, mkRow]
  rw [processItems_preserves_seen_rows env rest _ _ hseen1]
  rw [List.filter_append, filter_eq_nil_of_not_seen db _ hseen]
  simp [mkRow]

/-- Witness for C6's amended theorem: a raised notification error leaves the
freshly inserted row unnotified. -/
theorem C6_witness :
    (processItems envC6err [] [itemC6w]).1.filter
      (fun r => r.item_id == itemC6w.item_id) = [mkRow itemC6w envC6err.now] :=
  (C6_notification_failure_amended envC6err [] itemC6w [] "boom"
    (by rfl) (by rfl) (by rfl)).2.1

/-- Counterexample for C6: when delivery fails by returning `False` (every
per-recipient send raised a caught `TelegramError`, so no recipient received
the message), the run loop still marks the item as notified — the claim's
"the item is not marked as notified" does not hold for this failure mode. -/
theorem C6_counterexample :
    send_new_item_notification true ["1"] (fun _ => Except.error "TelegramError") = false ∧
    (processItems envC6 [] [itemC6]).1.map (fun r => (r.item_id, r.notified))
      = [("A", 1)] := by
  refine ⟨by decide, by decide⟩

/-- C7: for the GBP item with price "100.00" and shipping "5.00" under
exchange rate 95.0, the fixed-price message shows the per-person amount
`(100+5)*95/2 = 4987.5`, rounded to `4,988`; the auction message shows the
full `(100+5)*95 = 9975`, not halved; and when the rate lookup fails the
converted estimate is omitted while formatting still succeeds. -/
theorem C7_gbp_conversion :
    formatItemParts (fun _ => none) (some rate95) itemFixedC7 =
      ["🆕 <b>Новый лот на eBay!</b>\n", "📦 <b>Test</b>\n",
       "🛒 <b>Buy It Now</b>", "💰 100.00 GBP", "🚚 Доставка: ~5.00 GBP",
       "💵 ≈ 4,988 ₽ на человека (с доставкой)", "📈 Курс: 95.0 ₽/£",
       "\n🔗 <a href=\"u\">Открыть на eBay</a>"] ∧
    formatItemParts (fun _ => none) (some rate95) itemAuctionC7 =
      ["🆕 <b>Новый лот на eBay!</b>\n", "📦 <b>Test</b>\n",
       "🔨 <b>Аукцион</b>", "💰 Текущая ставка: <b>100.00 GBP</b>",
       "🚚 Доставка: ~5.00 GBP", "💵 ≈ 9,975 ₽ (+ доставка)",
       "📈 Курс: 95.0 ₽/£", "\n🔗 <a href=\"u\">Открыть на eBay</a>"] ∧
    formatItemParts (fun _ => none) none itemFixedC7 =
      ["🆕 <b>Новый лот на eBay!</b>\n", "📦 <b>Test</b>\n",
       "🛒 <b>Buy It Now</b>", "💰 100.00 GBP", "🚚 Доставка: ~5.00 GBP",
       "\n🔗 <a href=\"u\">Открыть на eBay</a>"] ∧
    pfToRat perPersonC7 = ((100 + 5) * 95 / 2 : ℚ) ∧
    ((100 + 5) * 95 / 2 : ℚ) = 4987.5 ∧
    pfRoundHalfEven perPersonC7 = 4988 ∧
    pfToRat rubPriceC7 = ((100 + 5) * 95 : ℚ) ∧
    ((100 + 5) * 95 : ℚ) = 9975 ∧
    pfRoundHalfEven rubPriceC7 = 9975 := by
  have hpp : perPersonC7 = ⟨99750000, 20000⟩ := by decide
  have hrp : rubPriceC7 = ⟨99750000, 10000⟩ := by decide
  refine ⟨by decide, by decide, by decide, ?_, by norm_num, by decide, ?_, by norm_num,
    by decide⟩
  · rw [hpp]
    unfold pfToRat
    norm_num
  · rw [hrp]
    unfold pfToRat
    norm_num

/-- `countP` only depends on the predicate's values on the list. -/
theorem countPCongrOn {α : Type} (l : List α) (p q : α → Bool)
    (h : ∀ a ∈ l, p a = q a) : l.countP p = l.countP q := by
  induction l with
  | nil => rfl
  | cons a t ih =>
    rw [List.countP_cons, List.countP_cons, h a (by simp),
      ih (fun b hb => h b (by simp [hb]))]

/-- C9: subscribing twice from a fresh store returns "new" then "returning",
`is_subscribed` is true after both, unsubscribing reports the subscription
was active and a status check afterwards reports inactive; re-subscribing
reactivates, and throughout (and for any store with at most one row for the
chat id) at most one row per `chat_id` is kept. -/
theorem C9_subscriber_lifecycle (c now now2 now3 : String)
    (u f l : Option String) :
    (add_subscriber [] c u f l now).1 = true ∧
    (add_subscriber (add_subscriber [] c u f l now).2 c u f l now2).1 = false ∧
    is_subscribed (add_subscriber [] c u f l now).2 c = true ∧
    is_subscribed (add_subscriber (add_subscriber [] c u f l now).2 c u f l now2).2 c = true ∧
    (remove_subscriber (add_subscriber [] c u f l now).2 c).1 = true ∧
    is_subscribed (remove_subscriber (add_subscriber [] c u f l now).2 c).2 c = false ∧
    ((add_subscriber (remove_subscriber (add_subscriber [] c u f l now).2 c).2
        c u f l now3).1 = true ∧
      ((add_subscriber (remove_subscriber (add_subscriber [] c u f l now).2 c).2
        c u f l now3).2).countP (fun r => r.chat_id == c) = 1) ∧
    (∀ db2 : SubDb, db2.countP (fun r => r.chat_id == c) ≤ 1 →
      ((add_subscriber db2 c u f l now).2.countP (fun r => r.chat_id == c)) ≤ 1) := by
  have h1 : add_subscriber [] c u f l now = (true, [⟨c, u, f, l, now, true⟩]) := rfl
  have h2 : add_subscriber [⟨c, u, f, l, now, true⟩] c u f l now2
      = (false, [⟨c, u, f, l, now, true⟩]) := by
    unfold add_subscriber
    simp [List.find?]
  have h3 : remove_subscriber [⟨c, u, f, l, now, true⟩] c
      = (true, [⟨c, u, f, l, now, false⟩]) := by
    unfold remove_subscriber
    simp
  have h4 : add_subscriber [⟨c, u, f, l, now, false⟩] c u f l now3
      = (true, [⟨c, u, f, l, now, true⟩]) := by
    unfold add_subscriber
    simp [List.find?]
  refine ⟨by rw [h1], by rw [h1]; simp only; rw [h2], by rw [h1]; simp [is_subscribed],
    by rw [h1]; simp only; rw [h2]; simp [is_subscribed],
    by rw [h1]; simp only; rw [h3],
    by rw [h1]; simp only; rw [h3]; simp [is_subscribed],
    ⟨by rw [h1]; simp only; rw [h3]; simp only; rw [h4],
     by rw [h1]; simp only; rw [h3]; simp only; rw [h4]; simp [List.countP_cons]⟩,
    ?_⟩
  intro db2 hle
  unfold add_subscriber
  cases hf : db2.find? (fun r => r.chat_id == c) with
  | none =>
    have hz : db2.countP (fun r => r.chat_id == c) = 0 := by
      rw [List.countP_eq_zero]
      intro a ha
      exact List.find?_eq_none.mp hf a ha
    simp [List.countP_append, List.countP_cons, hz]
  | some r =>
    by_cases hact : r.is_active
    · simpa [hact] using hle
    · simp only [hact, Bool.false_eq_true, if_false]
      have hmap : (db2.map (fun r2 =>
          if r2.chat_id == c then { r2 with is_active := true } else r2)).countP
            (fun r => r.chat_id == c) = db2.countP (fun r => r.chat_id == c) := by
        rw [List.countP_map]
        apply countPCongrOn
        intro a _
        by_cases ha : (a.chat_id == c) = true <;> simp [Function.comp, ha]
      exact hmap ▸ hle

/-- Witness for C9's at-most-one-row conjunct at chat id "123" and the empty
store. -/
theorem C9_witness :
    ((add_subscriber [] "123" none none none "t1").2).countP
      (fun r => r.chat_id == "123") ≤ 1 :=
  (C9_subscriber_lifecycle "123" "t1" "t2" "t3" none none none).2.2.2.2.2.2.2
    [] (by decide)

/-- C10: `get_stats` is internally consistent — `total_items` equals the sum
of the per-keyword group counts (rows with `NULL` keyword grouped under one
key), and `items_today` never exceeds `total_items`. -/
theorem C10_stats_consistent (db : Db) (today : String) :
    (get_stats db today).total_items
      = ((get_stats db today).items_by_keyword.map (fun kv => kv.2)).sum ∧
    (get_stats db today).items_today ≤ (get_stats db today).total_items := by
  constructor
  · unfold get_stats
    simp only [List.map_map]
    have hfun : ((fun kv : Option String × Nat => kv.2) ∘
        (fun k => (k, (db.filter (fun r => r.search_keyword == k)).length)))
        = fun k => (db.filter (fun r => r.search_keyword == k)).length := rfl
    rw [hfun]
    have hsum := List.sum_map_count_dedup_eq_length (db.map (fun r => r.search_keyword))
    rw [List.length_map] at hsum
    simp only [List.count_eq_countP] at hsum
    rw [← hsum]
    apply congrArg List.sum
    apply List.map_congr_left
    intro k hk
    have h2 : (db.filter (fun r => r.search_keyword == k)).length
        = (db.map (fun r => r.search_keyword)).countP (fun x => x == k) := by
      rw [List.countP_map, List.countP_eq_length_filter]
      rfl
    rw [h2]
    exact countPCongrOn _ _ _ (fun a _ => by by_cases h : a = k <;> simp [h])
  · unfold get_stats
    simp only
    exact List.length_filter_le _ _
